import Mathlib

/-!
Shallow embedding of the order-management REST service (route handlers in
`service/routes.py`, model layer `service/models.py` described by the spec and
exercised by `tests/test_models.py`).  The persistence substrate is modelled as
an explicit `DB` value holding the two tables and the substrate's
auto-increment counters; every handler is a pure function from a `DB` (and the
parsed request data) to a response together with the successor `DB`.
-/

set_option autoImplicit false

namespace OrdersService

/-- Status enumeration of an Order (spec section 3: NEW, PENDING, APPROVED,
SHIPPED, DELIVERED, CANCELED; default NEW). -/
inductive OrderStatus where
  | NEW
  | PENDING
  | APPROVED
  | SHIPPED
  | DELIVERED
  | CANCELED
deriving DecidableEq, Repr

/-- The enumeration name of a status, as rendered by `serialize()`. -/
def OrderStatus.name : OrderStatus → String
  | .NEW => "NEW"
  | .PENDING => "PENDING"
  | .APPROVED => "APPROVED"
  | .SHIPPED => "SHIPPED"
  | .DELIVERED => "DELIVERED"
  | .CANCELED => "CANCELED"

/-- Parse an enumeration name back to a status value. -/
def OrderStatus.ofName : String → Option OrderStatus
  | "NEW" => some .NEW
  | "PENDING" => some .PENDING
  | "APPROVED" => some .APPROVED
  | "SHIPPED" => some .SHIPPED
  | "DELIVERED" => some .DELIVERED
  | "CANCELED" => some .CANCELED
  | _ => none

/-- A persisted Order row (spec section 3).  `create_time` is kept as its
ISO-8601 text rendering; `cost_amount` is a decimal, modelled as a rational. -/
structure Order where
  id : Int
  name : String
  create_time : String
  address : String
  cost_amount : Rat
  status : OrderStatus
  user_id : Int
deriving DecidableEq, Repr

/-- A persisted Item row (spec section 3). -/
structure Item where
  id : Int
  title : String
  amount : Int
  price : Rat
  product_id : String
  status : String
  order_id : Int
deriving DecidableEq, Repr

/-- The persistence substrate: the two tables plus the substrate's
auto-increment counters for the next generated identity. -/
structure DB where
  orders : List Order
  items : List Item
  nextOrderId : Int
  nextItemId : Int
deriving DecidableEq, Repr

def emptyDB : DB :=
  { orders := [], items := [], nextOrderId := 1, nextItemId := 1 }

/-- Reachable-state invariant of the substrate: generated ids are below the
auto-increment counters, order ids are unique, and every item's `order_id`
references an existing order (orders cascade-delete their items, and both
item-creating endpoints bind items to an existing order). -/
def DB.WF (db : DB) : Prop :=
  (∀ o ∈ db.orders, o.id < db.nextOrderId) ∧
  (∀ it ∈ db.items, it.id < db.nextItemId) ∧
  db.orders.Pairwise (fun a b => a.id ≠ b.id) ∧
  (∀ it ∈ db.items, ∃ o ∈ db.orders, o.id = it.order_id)

/-! ### Accessor layer

`service/models.py` is not among the sources; the accessors below are modelled
from the spec (section 4.2) and from their use in `service/routes.py` and
`tests/test_models.py`. -/

/-- Modelled from the spec: `find(id)` returns the entity with the given id,
or a not-found indicator if none exists (`service/models.py` is missing). -/
def Order.find (db : DB) (oid : Int) : Option Order :=
  db.orders.find? (fun o => o.id == oid)

/-- Modelled from the spec: `all()` returns every persisted Order. -/
def Order.all (db : DB) : List Order :=
  db.orders

/-- Modelled from the spec: `create()` assigns a new identity via the
substrate's auto-increment counter and makes the entity durable. -/
def Order.create (db : DB) (o : Order) : Order × DB :=
  let o2 := { o with id := db.nextOrderId }
  (o2, { db with orders := db.orders ++ [o2], nextOrderId := db.nextOrderId + 1 })

/-- Modelled from the spec: `update()` writes the current in-memory field
values back to the persisted row identified by id. -/
def Order.update (db : DB) (o : Order) : DB :=
  { db with orders := db.orders.map (fun x => if x.id == o.id then o else x) }

/-- Modelled from the spec: `delete()` removes the persisted row; for Order it
cascades removal of owned Items (spec section 3: ownership). -/
def Order.delete (db : DB) (o : Order) : DB :=
  { db with orders := db.orders.filter (fun x => !(x.id == o.id)),
            items := db.items.filter (fun it => !(it.order_id == o.id)) }

/-- Modelled from the spec: `find(id)` for Item. -/
def Item.find (db : DB) (iid : Int) : Option Item :=
  db.items.find? (fun it => it.id == iid)

/-- Modelled from the spec: exact-match query returning all Items that belong
to the given order id (used by the item listing endpoint). -/
def Item.find_by_order_id (db : DB) (oid : Int) : List Item :=
  db.items.filter (fun it => it.order_id == oid)

/-- Modelled from the spec: `create()` for Item. -/
def Item.create (db : DB) (it : Item) : Item × DB :=
  let it2 := { it with id := db.nextItemId }
  (it2, { db with items := db.items ++ [it2], nextItemId := db.nextItemId + 1 })

/-- Modelled from the spec: `update()` for Item. -/
def Item.update (db : DB) (it : Item) : DB :=
  { db with items := db.items.map (fun x => if x.id == it.id then it else x) }

/-- Modelled from the spec: `delete()` for Item removes the persisted row,
leaving the owning Order's remaining items intact. -/
def Item.delete (db : DB) (it : Item) : DB :=
  { db with items := db.items.filter (fun x => !(x.id == it.id)) }

/-! ### Serialization / deserialization

JSON request and response bodies are modelled as records of optional fields
(a missing key is `none`). -/

/-- The JSON rendering of an Item / an item element of a request body. -/
structure ItemData where
  id : Option Int := none
  title : Option String := none
  amount : Option Int := none
  price : Option Rat := none
  product_id : Option String := none
  status : Option String := none
  order_id : Option Int := none
deriving DecidableEq, Repr

/-- The JSON rendering of an Order / an order request body. -/
structure OrderData where
  id : Option Int := none
  name : Option String := none
  create_time : Option String := none
  address : Option String := none
  cost_amount : Option Rat := none
  status : Option String := none
  user_id : Option Int := none
  items : Option (List ItemData) := none
deriving DecidableEq, Repr

/-- Modelled from the spec: `Item.serialize()` produces a mapping of all
fields (`service/models.py` is missing; field set per spec section 3 and
`tests/test_models.py::test_serialize_an_order`). -/
def Item.serialize (it : Item) : ItemData :=
  { id := some it.id, title := some it.title, amount := some it.amount,
    price := some it.price, product_id := some it.product_id,
    status := some it.status, order_id := some it.order_id }

/-- Modelled from the spec: `Order.serialize()` produces a mapping of all
fields, with status rendered as its enumeration name and the full Item list
serialized the same way (spec section 4.1). -/
def Order.serialize (o : Order) (its : List Item) : OrderData :=
  { id := some o.id, name := some o.name, create_time := some o.create_time,
    address := some o.address, cost_amount := some o.cost_amount,
    status := some o.status.name, user_id := some o.user_id,
    items := some (its.map Item.serialize) }

/-- Serialization of a persisted order inside a given database state: the
owned item collection is the set of items referencing the order. -/
def Order.serializeIn (db : DB) (o : Order) : OrderData :=
  Order.serialize o (Item.find_by_order_id db o.id)

/-- Validation failure raised by `deserialize` (spec section 4.1: a missing
required key is a `KeyError`-class failure; a status text that is not an
enumeration name cannot be stored). -/
inductive DataValidationError where
  | keyError (key : String)
  | badStatus (s : String)
deriving DecidableEq, Repr

/-- The non-identity fields of an Order populated by `deserialize` (the id is
set only by the persistence substrate). -/
structure OrderFields where
  name : String
  create_time : String
  address : String
  cost_amount : Rat
  status : OrderStatus
  user_id : Int
deriving DecidableEq, Repr

/-- Modelled from the spec: `Item.deserialize(data)` populates fields from a
mapping; required keys title, price, product_id; amount defaults to 1 and
status to empty text (spec section 3); `order_id` is taken from the mapping
when present and left unattached (0) otherwise — both item-creating routes
set it explicitly.  The produced Item has no substrate identity yet (id 0). -/
def Item.deserialize (d : ItemData) : Except DataValidationError Item :=
  match d.title, d.price, d.product_id with
  | none, _, _ => Except.error (.keyError "title")
  | some _, none, _ => Except.error (.keyError "price")
  | some _, some _, none => Except.error (.keyError "product_id")
  | some t, some pr, some pid =>
    Except.ok { id := 0, title := t, amount := d.amount.getD 1, price := pr,
                product_id := pid, status := d.status.getD "",
                order_id := d.order_id.getD 0 }

/-- Elementwise deserialization of a nested item list; the first failing
element aborts. -/
def Item.deserializeAll : List ItemData → Except DataValidationError (List Item)
  | [] => Except.ok []
  | d :: rest =>
    match Item.deserialize d, Item.deserializeAll rest with
    | Except.ok it, Except.ok l => Except.ok (it :: l)
    | Except.error e, _ => Except.error e
    | _, Except.error e => Except.error e

/-- Modelled from the spec: `Order.deserialize(data)` populates fields from a
mapping and fails if a required key is absent (spec section 4.1).  Required
fields per spec section 3: name, address, cost_amount, user_id; `create_time`
defaults to the creation instant `now`; status defaults to NEW.  A nested
`items` list, if present, deserializes each element into an Item bound to the
parent (spec section 4.1); the binding to the parent's id takes effect when
the parent is persisted (`Order.createWithItems`). -/
def Order.deserialize (now : String) (d : OrderData) :
    Except DataValidationError (OrderFields × List Item) :=
  match d.name, d.address, d.cost_amount, d.user_id with
  | none, _, _, _ => Except.error (.keyError "name")
  | some _, none, _, _ => Except.error (.keyError "address")
  | some _, some _, none, _ => Except.error (.keyError "cost_amount")
  | some _, some _, some _, none => Except.error (.keyError "user_id")
  | some nm, some addr, some cost, some uid =>
    match (match d.status with
           | none => Except.ok OrderStatus.NEW
           | some s =>
             match OrderStatus.ofName s with
             | some st => Except.ok st
             | none => Except.error (DataValidationError.badStatus s)) with
    | Except.error e => Except.error e
    | Except.ok st =>
      match (match d.items with
             | none => Except.ok []
             | some l => Item.deserializeAll l) with
      | Except.error e => Except.error e
      | Except.ok attached =>
        Except.ok ({ name := nm, create_time := d.create_time.getD now,
                     address := addr, cost_amount := cost, status := st,
                     user_id := uid }, attached)

/-- Persist every attached in-memory item bound to the owning order's id. -/
def attachItems (db : DB) (oid : Int) : List Item → DB
  | [] => db
  | it :: rest => attachItems (Item.create db { it with order_id := oid }).2 oid rest

/-- Modelled from the spec and `tests/test_models.py::test_add_order_item`:
creating an Order that carries attached in-memory Items (from a nested
deserialize) also persists those Items, bound to the new order's id — the
substrate cascades the relationship on commit. -/
def Order.createWithItems (db : DB) (o : Order) (attached : List Item) :
    Order × DB :=
  let r := Order.create db o
  (r.1, attachItems r.2 r.1.id attached)

/-! ### Route handlers (`service/routes.py`)

Each handler is a pure function of the database state and the parsed request;
`abort`/`api.abort` become an `err` result with the database unchanged.  The
web framework's routing, input validation and response marshalling machinery
is external to the core (spec section 1), so a response body is the value the
handler returns, i.e. the `serialize()` output. -/

/-- Outcome of one request: a success body or an aborted error. -/
inductive RouteResult (A : Type) where
  | ok (code : Nat) (body : A)
  | err (code : Nat) (msg : String)
deriving DecidableEq, Repr

/-- The `Location` header produced by `url_for("order_collection",
order_id=order.id, _external=True)`: the collection route with the order id
carried as a query argument. -/
def locationUrl (oid : Int) : String :=
  "/orders?order_id=" ++ toString oid

/-- The item-creation loop of `OrderCollection.post` (routes.py lines
159-166): for each element the handler sets `order_id` to the new order's id,
deserializes it and creates it; a validation failure aborts the loop with the
rows created so far already durable. -/
def createItems (db : DB) (oid : Int) :
    List ItemData → DB × Option DataValidationError
  | [] => (db, none)
  | d :: rest =>
    match Item.deserialize { d with order_id := some oid } with
    | .error e => (db, some e)
    | .ok it =>
      let r := Item.create db it
      createItems r.2 oid rest

/-- `OrderCollection.post` (routes.py lines 143-175): deserialize the order
(attaching any nested items), create it — the substrate cascading the
attached items — then the handler's own loop deserializes and creates each
nested element again; answer 201 with the serialized order and a Location
header. -/
def OrderCollection_post (db : DB) (now : String) (d : OrderData) :
    RouteResult (OrderData × String) × DB :=
  match Order.deserialize now d with
  | .error _ => (.err 400 "posted data was not valid", db)
  | .ok (f, attached) =>
    let r := Order.createWithItems db
      { id := 0, name := f.name, create_time := f.create_time,
        address := f.address, cost_amount := f.cost_amount,
        status := f.status, user_id := f.user_id } attached
    let o := r.1
    let db1 := r.2
    match d.items with
    | none => (.ok 201 (Order.serializeIn db1 o, locationUrl o.id), db1)
    | some itds =>
      let s := createItems db1 o.id itds
      match s.2 with
      | some _ => (.err 400 "posted data was not valid", s.1)
      | none => (.ok 201 (Order.serializeIn s.1 o, locationUrl o.id), s.1)

/-- The parsed query-string arguments of `GET /orders` (reqparse: each is
absent or a parsed value). -/
structure OrdersArgs where
  order_id : Option Int := none
  user_id : Option Int := none
  status : Option String := none
  name : Option String := none
deriving DecidableEq, Repr

/-- Python truthiness of a parsed optional integer argument (`if
query_params["order_id"]:`): absent and 0 are both falsy. -/
def truthyInt : Option Int → Bool
  | none => false
  | some v => v != 0

/-- Python truthiness of a parsed optional text argument: absent and the
empty string are both falsy. -/
def truthyStr : Option String → Bool
  | none => false
  | some s => s != ""

/-- `OrderCollection.get` (routes.py lines 180-227): filter chain over the
query arguments, first truthy filter wins, all orders otherwise; the matching
rows are serialized. -/
def OrderCollection_get (db : DB) (qp : OrdersArgs) : List OrderData :=
  let rows :=
    if truthyInt qp.order_id then
      db.orders.filter (fun o => o.id == qp.order_id.getD 0)
    else if truthyInt qp.user_id then
      db.orders.filter (fun o => o.user_id == qp.user_id.getD 0)
    else if truthyStr qp.status then
      db.orders.filter (fun o => o.status.name == qp.status.getD "")
    else if truthyStr qp.name then
      db.orders.filter (fun o => o.name == qp.name.getD "")
    else
      Order.all db
  rows.map (Order.serializeIn db)

/-- `OrderResource.get` (routes.py lines 246-257): serialize the found order
or abort 404. -/
def OrderResource_get (db : DB) (oid : Int) : RouteResult OrderData :=
  match Order.find db oid with
  | some o => .ok 200 (Order.serializeIn db o)
  | none => .err 404 "Order was not found"

/-- The body of `PUT /orders/{id}`: only the keys the handler inspects.  The
handler stores the posted status name; persisting coerces it to the
enumeration, modelled as a status value. -/
structure UpdatePayload where
  name : Option String := none
  address : Option String := none
  status : Option OrderStatus := none
deriving DecidableEq, Repr

/-- `OrderResource.put` (routes.py lines 267-291): 404 when the order does
not exist; otherwise overwrite name, address and status with the values
present in the body and update the row. -/
def OrderResource_put (db : DB) (oid : Int) (d : UpdatePayload) :
    RouteResult OrderData × DB :=
  match Order.find db oid with
  | none => (.err 404 "Order not found", db)
  | some o =>
    let o1 := match d.name with
      | some v => { o with name := v }
      | none => o
    let o2 := match d.address with
      | some v => { o1 with address := v }
      | none => o1
    let o3 := match d.status with
      | some v => { o2 with status := v }
      | none => o2
    let db1 := Order.update db o3
    (.ok 200 (Order.serializeIn db1 o3), db1)

/-- `OrderResource.delete` (routes.py lines 298-310): delete when found, 204
either way. -/
def OrderResource_delete (db : DB) (oid : Int) : RouteResult String × DB :=
  match Order.find db oid with
  | some o => (.ok 204 "", Order.delete db o)
  | none => (.ok 204 "", db)

/-- `OrderCancelResource.put` (routes.py lines 324-340): 404 when the order
does not exist; otherwise set the status to CANCELED and update. -/
def OrderCancelResource_put (db : DB) (oid : Int) :
    RouteResult OrderData × DB :=
  match Order.find db oid with
  | none => (.err 404 "Order not found", db)
  | some o =>
    let o1 := { o with status := OrderStatus.CANCELED }
    let db1 := Order.update db o1
    (.ok 200 (Order.serializeIn db1 o1), db1)

/-- `ItemListResource.get` (routes.py lines 356-368): query the items of the
order id; an empty result — `if not items:` — aborts 404. -/
def ItemListResource_get (db : DB) (oid : Int) : RouteResult (List ItemData) :=
  let its := Item.find_by_order_id db oid
  if its.isEmpty then .err 404 "Items were not found"
  else .ok 200 (its.map Item.serialize)

/-- `ItemListResource.post` (routes.py lines 379-398): 404 when the order
does not exist; otherwise deserialize the item, force its `order_id` to the
path id and its `amount` to 1, create it, answer 201 with its serialization. -/
def ItemListResource_post (db : DB) (oid : Int) (d : ItemData) :
    RouteResult ItemData × DB :=
  match Order.find db oid with
  | none => (.err 404 "Order was not found", db)
  | some _ =>
    match Item.deserialize d with
    | .error _ => (.err 400 "posted data was not valid", db)
    | .ok it0 =>
      let it1 := { it0 with order_id := oid, amount := 1 }
      let r := Item.create db it1
      (.ok 201 (Item.serialize r.1), r.2)

/-- `OrderItemResource.delete` (routes.py lines 447-466): delete the item
only when the order exists, the item exists and the item belongs to that
order; answer 204 in every case. -/
def OrderItemResource_delete (db : DB) (oid iid : Int) :
    RouteResult String × DB :=
  match Order.find db oid with
  | some _ =>
    match Item.find db iid with
    | some it =>
      if it.order_id == oid then (.ok 204 "", Item.delete db it)
      else (.ok 204 "", db)
    | none => (.ok 204 "", db)
  | none => (.ok 204 "", db)

/-! ### Shared lemmas -/

theorem OrderStatus.ofName_name (s : OrderStatus) :
    OrderStatus.ofName s.name = some s := by
  cases s <;> rfl

/-- In a list of orders whose ids are all below `n`, appending a fresh order
with id `n` makes it the one found when looking id `n` up. -/
theorem find_id_append_fresh (l : List Order) (n : Int) (o2 : Order)
    (hlt : ∀ o ∈ l, o.id < n) (hid : o2.id = n) :
    (l ++ [o2]).find? (fun o => o.id == n) = some o2 := by
  induction l with
  | nil => simp [List.find?, hid]
  | cons x xs ih =>
    have hx : x.id < n := hlt x (by simp)
    have hne : (x.id == n) = false := by
      rw [beq_eq_false_iff_ne]
      omega
    rw [List.cons_append, List.find?_cons_of_neg _ (by simp [hne])]
    exact ih (fun o ho => hlt o (by simp [ho]))

/-- In a well-formed state, no item references the yet-unassigned next order
id. -/
theorem items_fresh_filter_nil (db : DB) (hwf : db.WF) :
    db.items.filter (fun it => it.order_id == db.nextOrderId) = [] := by
  rw [List.filter_eq_nil_iff]
  intro it hit
  obtain ⟨o, ho, hoid⟩ := hwf.2.2.2 it hit
  have hlt : o.id < db.nextOrderId := hwf.1 o ho
  simp only [beq_iff_eq]
  omega

/-- If an order with the looked-up id does not exist, a well-formed state has
no item referencing that id. -/
theorem find_by_order_id_nil_of_no_order (db : DB) (oid : Int) (hwf : db.WF)
    (h : Order.find db oid = none) : Item.find_by_order_id db oid = [] := by
  rw [Item.find_by_order_id, List.filter_eq_nil_iff]
  intro it hit
  obtain ⟨o, ho, hoid⟩ := hwf.2.2.2 it hit
  have hno := List.find?_eq_none.mp h o ho
  simp only [beq_iff_eq] at hno ⊢
  omega

/-- Updating the row with the looked-up id makes the updated value the one
found afterwards. -/
theorem find_after_update (l : List Order) (oid : Int) (o2 : Order)
    (hsome : (l.find? (fun x => x.id == oid)).isSome) (hid : o2.id = oid) :
    (l.map (fun x => if x.id == o2.id then o2 else x)).find?
        (fun x => x.id == oid) = some o2 := by
  induction l with
  | nil => simp [List.find?] at hsome
  | cons x xs ih =>
    by_cases hx : x.id = oid
    · rw [List.map_cons, if_pos (by simp [hx, hid]),
        List.find?_cons_of_pos _ (by simp [hid])]
    · rw [List.map_cons, if_neg (by simp [hx, hid])]
      rw [List.find?_cons_of_neg _ (by simp [hx])] at hsome ⊢
      exact ih hsome

/-- A found order carries the looked-up id. -/
theorem find_id_eq (db : DB) (oid : Int) (o : Order)
    (h : Order.find db oid = some o) : o.id = oid := by
  have := List.find?_some h
  simpa using this

/-- A found item carries the looked-up id. -/
theorem item_find_id_eq (db : DB) (iid : Int) (it : Item)
    (h : Item.find db iid = some it) : it.id = iid := by
  have := List.find?_some h
  simpa using this

/-! ### Claims -/

/-- Deserializing a serialized item list reproduces every item field except
the substrate identity (reset to the unassigned 0). -/
theorem deserializeAll_serialize (its : List Item) :
    Item.deserializeAll (its.map Item.serialize) =
      Except.ok (its.map (fun it => { it with id := 0 })) := by
  induction its with
  | nil => rfl
  | cons a l ih =>
    simp [Item.deserializeAll, Item.deserialize, Item.serialize, ih]

/-- Claim C7: for every valid Order, `deserialize(serialize(o))` reproduces
every field of `o` except the identity fields set only by the persistence
substrate: the six scalar fields come back exactly, and every nested item
comes back with all its fields except its substrate id. -/
theorem c7_serialize_deserialize_roundtrip (o : Order) (its : List Item)
    (now : String) :
    Order.deserialize now (Order.serialize o its) =
      Except.ok ({ name := o.name, create_time := o.create_time,
                   address := o.address, cost_amount := o.cost_amount,
                   status := o.status, user_id := o.user_id },
                 its.map (fun it => { it with id := 0 })) := by
  cases o with
  | mk i nm ct addr cost st uid =>
    cases st <;>
      simp [Order.deserialize, Order.serialize, deserializeAll_serialize,
        OrderStatus.ofName_name]

/-- Claim C8: `DELETE /orders/{id}` answers 204 for every id, also for an id
with no persisted order, and in that case the state is unchanged. -/
theorem c8_delete_order_always_204 (db : DB) (oid : Int) :
    (OrderResource_delete db oid).1 = RouteResult.ok 204 "" ∧
    (Order.find db oid = none → (OrderResource_delete db oid).2 = db) := by
  cases h : Order.find db oid with
  | none => simp [OrderResource_delete, h]
  | some o => simp [OrderResource_delete, h]

/-- Witness for C8 at a concrete database and id. -/
theorem c8_delete_order_always_204_witness :
    (OrderResource_delete emptyDB 1).1 = RouteResult.ok 204 "" ∧
    (OrderResource_delete emptyDB 1).2 = emptyDB :=
  ⟨(c8_delete_order_always_204 emptyDB 1).1,
   (c8_delete_order_always_204 emptyDB 1).2 rfl⟩

/-- Claim C10: `DELETE /orders/{order_id}/items/{item_id}` answers 204 for
every pair of ids; the item is deleted exactly when the order exists, the item
exists and the item belongs to that order; in every other case the state is
unchanged. -/
theorem c10_delete_item_cases (db : DB) (oid iid : Int) :
    (OrderItemResource_delete db oid iid).1 = RouteResult.ok 204 "" ∧
    (∀ o it, Order.find db oid = some o → Item.find db iid = some it →
      it.order_id = oid →
      (OrderItemResource_delete db oid iid).2 = Item.delete db it) ∧
    (Order.find db oid = none → (OrderItemResource_delete db oid iid).2 = db) ∧
    (Item.find db iid = none → (OrderItemResource_delete db oid iid).2 = db) ∧
    (∀ it, Item.find db iid = some it → it.order_id ≠ oid →
      (OrderItemResource_delete db oid iid).2 = db) := by
  cases ho : Order.find db oid with
  | none => simp [OrderItemResource_delete, ho]
  | some o =>
    cases hi : Item.find db iid with
    | none => simp [OrderItemResource_delete, ho, hi]
    | some it =>
      by_cases hb : it.order_id = oid
      · simp [OrderItemResource_delete, ho, hi, hb]
      · simp [OrderItemResource_delete, ho, hi, hb]

def orderA : Order :=
  { id := 1, name := "A", create_time := "t0", address := "X",
    cost_amount := 10, status := .NEW, user_id := 1 }

def itemA : Item :=
  { id := 1, title := "T", amount := 2, price := 3, product_id := "P",
    status := "INSTOCK", order_id := 1 }

def dbOrderWithItem : DB :=
  { orders := [orderA], items := [itemA], nextOrderId := 2, nextItemId := 2 }

/-- Witness for C10 at a concrete database: the owned item is deleted with a
204 answer. -/
theorem c10_delete_item_cases_witness :
    (OrderItemResource_delete dbOrderWithItem 1 1).1 = RouteResult.ok 204 "" ∧
    (OrderItemResource_delete dbOrderWithItem 1 1).2 =
      Item.delete dbOrderWithItem itemA :=
  ⟨(c10_delete_item_cases dbOrderWithItem 1 1).1,
   (c10_delete_item_cases dbOrderWithItem 1 1).2.1 orderA itemA (by decide)
     (by decide) rfl⟩

/-- A found order makes the raw lookup defined. -/
theorem find_isSome (db : DB) (oid : Int) (o : Order)
    (h : Order.find db oid = some o) :
    (db.orders.find? (fun x => x.id == oid)).isSome := by
  simp only [Order.find] at h
  rw [h]
  rfl

/-- Claim C4: `PUT /orders/{id}/cancel` on an existing order answers 200 with
status CANCELED, visible in subsequent reads; on a nonexistent id it answers
404 and changes no state. -/
theorem c4_cancel_order (db : DB) (oid : Int) :
    (∀ o, Order.find db oid = some o →
      OrderCancelResource_put db oid =
        (RouteResult.ok 200
          (Order.serializeIn
            (Order.update db { o with status := OrderStatus.CANCELED })
            { o with status := OrderStatus.CANCELED }),
         Order.update db { o with status := OrderStatus.CANCELED }) ∧
      (Order.serializeIn
          (Order.update db { o with status := OrderStatus.CANCELED })
          { o with status := OrderStatus.CANCELED }).status = some "CANCELED" ∧
      Order.find (Order.update db { o with status := OrderStatus.CANCELED })
          oid = some { o with status := OrderStatus.CANCELED }) ∧
    (Order.find db oid = none →
      OrderCancelResource_put db oid = (RouteResult.err 404 "Order not found", db)) := by
  constructor
  · intro o h
    refine ⟨by simp [OrderCancelResource_put, h], rfl, ?_⟩
    have hid : ({ o with status := OrderStatus.CANCELED } : Order).id = oid :=
      find_id_eq db oid o h
    exact find_after_update db.orders oid _ (find_isSome db oid o h) hid
  · intro h
    simp [OrderCancelResource_put, h]

/-- Witness for C4 at a concrete database: cancel of order 1, then cancel of
the nonexistent id 5. -/
theorem c4_cancel_order_witness :
    OrderCancelResource_put dbOrderWithItem 1 =
      (RouteResult.ok 200
        (Order.serializeIn
          (Order.update dbOrderWithItem { orderA with status := OrderStatus.CANCELED })
          { orderA with status := OrderStatus.CANCELED }),
       Order.update dbOrderWithItem { orderA with status := OrderStatus.CANCELED }) ∧
    OrderCancelResource_put dbOrderWithItem 5 =
      (RouteResult.err 404 "Order not found", dbOrderWithItem) :=
  ⟨((c4_cancel_order dbOrderWithItem 1).1 orderA (by decide)).1,
   (c4_cancel_order dbOrderWithItem 5).2 (by decide)⟩

def dbOneOrderNoItems : DB :=
  { orders := [orderA], items := [], nextOrderId := 2, nextItemId := 1 }

/-- Counterexample to claim C5 as stated: the order with id 1 exists and owns
zero items, yet `GET /orders/1/items` answers 404 instead of 200 with the
empty list. -/
theorem c5_counterexample :
    Order.find dbOneOrderNoItems 1 = some orderA ∧
    Item.find_by_order_id dbOneOrderNoItems 1 = [] ∧
    ItemListResource_get dbOneOrderNoItems 1 =
      RouteResult.err 404 "Items were not found" ∧
    ItemListResource_get dbOneOrderNoItems 1 ≠ RouteResult.ok 200 [] := by
  refine ⟨by decide, rfl, rfl, by decide⟩

/-- Claim C5 (amended): `GET /orders/{id}/items` answers 200 with the order's
serialized items when at least one item references the order, and 404 whenever
no item does — which covers both an existing order owning zero items and a
nonexistent order (the latter via the reachable-state invariant). -/
theorem c5_amended_list_items (db : DB) (oid : Int) :
    (Item.find_by_order_id db oid = [] →
      ItemListResource_get db oid = RouteResult.err 404 "Items were not found") ∧
    (Item.find_by_order_id db oid ≠ [] →
      ItemListResource_get db oid =
        RouteResult.ok 200 ((Item.find_by_order_id db oid).map Item.serialize)) ∧
    (db.WF → Order.find db oid = none →
      ItemListResource_get db oid = RouteResult.err 404 "Items were not found") := by
  refine ⟨?_, ?_, ?_⟩
  · intro h
    simp [ItemListResource_get, h]
  · intro h
    cases hl : Item.find_by_order_id db oid with
    | nil => exact absurd hl h
    | cons a l => simp [ItemListResource_get, hl]
  · intro hwf h
    have hnil := find_by_order_id_nil_of_no_order db oid hwf h
    simp [ItemListResource_get, hnil]

/-- Witness for the amended C5: a nonempty listing at a concrete order with
one item, and a 404 at a concrete order with no items. -/
theorem c5_amended_list_items_witness :
    ItemListResource_get dbOrderWithItem 1 =
      RouteResult.ok 200
        ((Item.find_by_order_id dbOrderWithItem 1).map Item.serialize) ∧
    ItemListResource_get dbOneOrderNoItems 1 =
      RouteResult.err 404 "Items were not found" :=
  ⟨(c5_amended_list_items dbOrderWithItem 1).2.1 (by decide),
   (c5_amended_list_items dbOneOrderNoItems 1).1 (by decide)⟩

/-- The order produced by `OrderResource.put`: name, address and status are
overwritten by the values present in the body, every other field kept. -/
def updatedOrder (o : Order) (d : UpdatePayload) : Order :=
  { o with name := d.name.getD o.name, address := d.address.getD o.address,
           status := d.status.getD o.status }

/-- Claim C6: `PUT /orders/{id}` overwrites exactly the name, address and
status fields with the values present in the body (an absent field is left
unchanged); id, create_time, cost_amount, user_id, the item table and every
other order are untouched; a nonexistent id answers 404 without mutating
state. -/
theorem c6_update_only_name_address_status (db : DB) (oid : Int)
    (d : UpdatePayload) :
    (∀ o, Order.find db oid = some o →
      OrderResource_put db oid d =
        (RouteResult.ok 200
          (Order.serializeIn (Order.update db (updatedOrder o d))
            (updatedOrder o d)),
         Order.update db (updatedOrder o d)) ∧
      (updatedOrder o d).id = o.id ∧
      (updatedOrder o d).create_time = o.create_time ∧
      (updatedOrder o d).cost_amount = o.cost_amount ∧
      (updatedOrder o d).user_id = o.user_id ∧
      (d.name = none → (updatedOrder o d).name = o.name) ∧
      (d.address = none → (updatedOrder o d).address = o.address) ∧
      (d.status = none → (updatedOrder o d).status = o.status) ∧
      (∀ v, d.name = some v → (updatedOrder o d).name = v) ∧
      (∀ v, d.address = some v → (updatedOrder o d).address = v) ∧
      (∀ v, d.status = some v → (updatedOrder o d).status = v) ∧
      (Order.update db (updatedOrder o d)).items = db.items ∧
      (Order.update db (updatedOrder o d)).orders.length = db.orders.length ∧
      (∀ x ∈ db.orders, x.id ≠ oid →
        x ∈ (Order.update db (updatedOrder o d)).orders) ∧
      Order.find (Order.update db (updatedOrder o d)) oid =
        some (updatedOrder o d)) ∧
    (Order.find db oid = none →
      OrderResource_put db oid d = (RouteResult.err 404 "Order not found", db)) := by
  constructor
  · intro o h
    have hoid : o.id = oid := find_id_eq db oid o h
    have heq : OrderResource_put db oid d =
        (RouteResult.ok 200
          (Order.serializeIn (Order.update db (updatedOrder o d))
            (updatedOrder o d)),
         Order.update db (updatedOrder o d)) := by
      obtain ⟨dn, da, ds⟩ := d
      cases dn <;> cases da <;> cases ds <;>
        simp [OrderResource_put, h, updatedOrder]
    refine ⟨heq, rfl, rfl, rfl, rfl, ?_, ?_, ?_, ?_, ?_, ?_, rfl, ?_, ?_, ?_⟩
    · intro hn; simp [updatedOrder, hn]
    · intro hn; simp [updatedOrder, hn]
    · intro hn; simp [updatedOrder, hn]
    · intro v hv; simp [updatedOrder, hv]
    · intro v hv; simp [updatedOrder, hv]
    · intro v hv; simp [updatedOrder, hv]
    · simp [Order.update]
    · intro x hx hne
      have hfix :
          (if x.id == (updatedOrder o d).id then updatedOrder o d else x) = x := by
        have hb : (x.id == (updatedOrder o d).id) = false := by
          rw [beq_eq_false_iff_ne]
          show x.id ≠ o.id
          omega
        simp [hb]
      have hmem := List.mem_map_of_mem
        (fun y => if y.id == (updatedOrder o d).id then updatedOrder o d else y) hx
      have hmem2 : (if x.id == (updatedOrder o d).id then updatedOrder o d else x)
          ∈ (Order.update db (updatedOrder o d)).orders := hmem
      rw [hfix] at hmem2
      exact hmem2
    · exact find_after_update db.orders oid (updatedOrder o d)
        (find_isSome db oid o h) hoid
  · intro h
    simp [OrderResource_put, h]

/-- Witness for C6: a concrete name-only update of order 1 and a 404 at the
nonexistent id 9. -/
theorem c6_update_only_name_address_status_witness :
    OrderResource_put dbOneOrderNoItems 1 { name := some "N2" } =
      (RouteResult.ok 200
        (Order.serializeIn
          (Order.update dbOneOrderNoItems
            (updatedOrder orderA { name := some "N2" }))
          (updatedOrder orderA { name := some "N2" })),
       Order.update dbOneOrderNoItems
         (updatedOrder orderA { name := some "N2" })) ∧
    OrderResource_put dbOneOrderNoItems 9 { name := some "N2" } =
      (RouteResult.err 404 "Order not found", dbOneOrderNoItems) :=
  ⟨((c6_update_only_name_address_status dbOneOrderNoItems 1
      { name := some "N2" }).1 orderA (by decide)).1,
   (c6_update_only_name_address_status dbOneOrderNoItems 9
      { name := some "N2" }).2 (by decide)⟩

/-- Counterexample to claim C3 as stated: with the single filter `user_id=0`
supplied, the handler returns every persisted order (the parsed value 0 is
falsy, so the filter is skipped), not the set of orders whose user_id is 0
(empty here). -/
theorem c3_counterexample :
    OrderCollection_get dbOneOrderNoItems { user_id := some 0 } =
      [Order.serializeIn dbOneOrderNoItems orderA] ∧
    (dbOneOrderNoItems.orders.filter (fun o => o.user_id == 0)).map
      (Order.serializeIn dbOneOrderNoItems) = [] ∧
    OrderCollection_get dbOneOrderNoItems { user_id := some 0 } ≠
      (dbOneOrderNoItems.orders.filter (fun o => o.user_id == 0)).map
        (Order.serializeIn dbOneOrderNoItems) := by
  refine ⟨rfl, rfl, by decide⟩

/-- Claim C3 (amended): the `GET /orders` filters are mutually exclusive with
precedence order_id, user_id, status, name, where a filter counts as supplied
only when its parsed value is truthy (a nonzero integer or a nonempty
string); with no truthy filter every persisted order is returned; a truthy
`user_id=U` with no earlier truthy filter returns exactly the orders whose
user_id is U. -/
theorem c3_amended_filter_precedence (db : DB) (qp : OrdersArgs) :
    (truthyInt qp.order_id = false → truthyInt qp.user_id = false →
      truthyStr qp.status = false → truthyStr qp.name = false →
      OrderCollection_get db qp = db.orders.map (Order.serializeIn db)) ∧
    (∀ i, qp.order_id = some i → i ≠ 0 →
      OrderCollection_get db qp =
        (db.orders.filter (fun o => o.id == i)).map (Order.serializeIn db)) ∧
    (∀ u, truthyInt qp.order_id = false → qp.user_id = some u → u ≠ 0 →
      OrderCollection_get db qp =
        (db.orders.filter (fun o => o.user_id == u)).map (Order.serializeIn db)) ∧
    (∀ s, truthyInt qp.order_id = false → truthyInt qp.user_id = false →
      qp.status = some s → s ≠ "" →
      OrderCollection_get db qp =
        (db.orders.filter (fun o => o.status.name == s)).map
          (Order.serializeIn db)) ∧
    (∀ s, truthyInt qp.order_id = false → truthyInt qp.user_id = false →
      truthyStr qp.status = false → qp.name = some s → s ≠ "" →
      OrderCollection_get db qp =
        (db.orders.filter (fun o => o.name == s)).map (Order.serializeIn db)) := by
  refine ⟨?_, ?_, ?_, ?_, ?_⟩
  · intro h1 h2 h3 h4
    simp [OrderCollection_get, Order.all, h1, h2, h3, h4]
  · intro i hi hne
    have ht : truthyInt (some i) = true := by simp [truthyInt, hne]
    simp [OrderCollection_get, hi, ht]
  · intro u h1 hu hne
    have ht : truthyInt (some u) = true := by simp [truthyInt, hne]
    simp [OrderCollection_get, h1, hu, ht]
  · intro s h1 h2 hs hne
    have ht : truthyStr (some s) = true := by simp [truthyStr, hne]
    simp [OrderCollection_get, h1, h2, hs, ht]
  · intro s h1 h2 h3 hs hne
    have ht : truthyStr (some s) = true := by simp [truthyStr, hne]
    simp [OrderCollection_get, h1, h2, h3, hs, ht]

/-- Witness for the amended C3: the user_id filter applied at a concrete
database. -/
theorem c3_amended_filter_precedence_witness :
    OrderCollection_get dbOneOrderNoItems { user_id := some 1 } =
      (dbOneOrderNoItems.orders.filter (fun o => o.user_id == 1)).map
        (Order.serializeIn dbOneOrderNoItems) :=
  (c3_amended_filter_precedence dbOneOrderNoItems
    { user_id := some 1 }).2.2.1 1 rfl rfl (by decide)

/-- Claim C9: a successful `POST /orders/{order_id}/items` persists the new
item with amount 1, whatever amount the body carried. -/
theorem c9_item_created_with_amount_one (db : DB) (oid : Int) (d : ItemData)
    (o : Order) (it0 : Item) (hfind : Order.find db oid = some o)
    (hdes : Item.deserialize d = Except.ok it0) :
    ∃ newIt db2,
      ItemListResource_post db oid d =
        (RouteResult.ok 201 (Item.serialize newIt), db2) ∧
      db2.items = db.items ++ [newIt] ∧
      newIt.amount = 1 ∧ newIt.order_id = oid ∧
      (Item.serialize newIt).amount = some 1 := by
  refine ⟨{ it0 with order_id := oid, amount := 1, id := db.nextItemId },
    { db with
        items := db.items ++
          [{ it0 with order_id := oid, amount := 1, id := db.nextItemId }],
        nextItemId := db.nextItemId + 1 },
    ?_, rfl, rfl, rfl, rfl⟩
  simp [ItemListResource_post, hfind, hdes, Item.create]

def itemBody : ItemData :=
  { title := some "T", amount := some 7, price := some 3,
    product_id := some "P" }

/-- Witness for C9: the posted amount 7 is overridden with 1. -/
theorem c9_item_created_with_amount_one_witness :
    ∃ newIt db2,
      ItemListResource_post dbOneOrderNoItems 1 itemBody =
        (RouteResult.ok 201 (Item.serialize newIt), db2) ∧
      db2.items = dbOneOrderNoItems.items ++ [newIt] ∧
      newIt.amount = 1 ∧ newIt.order_id = 1 ∧
      (Item.serialize newIt).amount = some 1 :=
  c9_item_created_with_amount_one dbOneOrderNoItems 1 itemBody orderA
    { id := 0, title := "T", amount := 7, price := 3, product_id := "P",
      status := "", order_id := 0 } rfl rfl

def c1Body : OrderData :=
  { name := some "A", address := some "X", cost_amount := some 10,
    user_id := some 1 }

theorem emptyDB_wf : DB.WF emptyDB := by
  refine ⟨?_, ?_, ?_, ?_⟩ <;> simp [DB.WF, emptyDB]

/-- Claim C1: `POST /orders` with name A, address X, cost 10, user 1 (no
status, no items) answers 201 with a Location header, a generated id and
status NEW; a subsequent `GET /orders/{id}` with the generated id answers 200
with the same fields. -/
theorem c1_create_then_read (db : DB) (now : String) (hwf : db.WF) :
    ∃ body db2,
      OrderCollection_post db now c1Body =
        (RouteResult.ok 201 (body, locationUrl db.nextOrderId), db2) ∧
      body.id = some db.nextOrderId ∧
      body.status = some "NEW" ∧
      body.name = some "A" ∧
      body.address = some "X" ∧
      body.cost_amount = some 10 ∧
      body.user_id = some 1 ∧
      OrderResource_get db2 db.nextOrderId = RouteResult.ok 200 body := by
  refine ⟨Order.serializeIn
      { orders := db.orders ++
          [{ id := db.nextOrderId, name := "A", create_time := now,
             address := "X", cost_amount := 10, status := OrderStatus.NEW,
             user_id := 1 }],
        items := db.items, nextOrderId := db.nextOrderId + 1,
        nextItemId := db.nextItemId }
      { id := db.nextOrderId, name := "A", create_time := now, address := "X",
        cost_amount := 10, status := OrderStatus.NEW, user_id := 1 },
    { orders := db.orders ++
        [{ id := db.nextOrderId, name := "A", create_time := now,
           address := "X", cost_amount := 10, status := OrderStatus.NEW,
           user_id := 1 }],
      items := db.items, nextOrderId := db.nextOrderId + 1,
      nextItemId := db.nextItemId },
    rfl, rfl, rfl, rfl, rfl, rfl, rfl, ?_⟩
  have hfind : Order.find
      { orders := db.orders ++
          [{ id := db.nextOrderId, name := "A", create_time := now,
             address := "X", cost_amount := 10, status := OrderStatus.NEW,
             user_id := 1 }],
        items := db.items, nextOrderId := db.nextOrderId + 1,
        nextItemId := db.nextItemId } db.nextOrderId =
      some { id := db.nextOrderId, name := "A", create_time := now,
             address := "X", cost_amount := 10, status := OrderStatus.NEW,
             user_id := 1 } :=
    find_id_append_fresh db.orders db.nextOrderId _ hwf.1 rfl
  simp [OrderResource_get, hfind]

/-- Witness for C1 at the empty database. -/
theorem c1_create_then_read_witness :
    DB.WF emptyDB ∧
    (∃ body db2,
      OrderCollection_post emptyDB "t0" c1Body =
        (RouteResult.ok 201 (body, locationUrl emptyDB.nextOrderId), db2) ∧
      body.id = some emptyDB.nextOrderId ∧
      body.status = some "NEW" ∧
      body.name = some "A" ∧
      body.address = some "X" ∧
      body.cost_amount = some 10 ∧
      body.user_id = some 1 ∧
      OrderResource_get db2 emptyDB.nextOrderId = RouteResult.ok 200 body) :=
  ⟨emptyDB_wf, c1_create_then_read emptyDB "t0" emptyDB_wf⟩

/-- The request body used to exhibit the C2 defect: a valid order nesting
exactly one item. -/
def c2Body : OrderData :=
  { name := some "B", address := some "Y", cost_amount := some 5,
    user_id := some 2,
    items := some [{ title := some "T1", amount := some 1, price := some 2,
                     product_id := some "P1" }] }

/-- Claim C2, evaluated at the failing input: posting a valid order nesting
ONE item at the empty database succeeds with 201, yet TWO persisted items
reference the new order id — the nested deserialize attaches the element
and `create()` cascades it, then the handler loop of `OrderCollection.post`
(routes.py lines 159-166) deserializes and creates the same element again. -/
theorem c2_code_bug_double_creation :
    (∃ body loc, (OrderCollection_post emptyDB "t0" c2Body).1 =
      RouteResult.ok 201 (body, loc)) ∧
    c2Body.items.map List.length = some 1 ∧
    ((OrderCollection_post emptyDB "t0" c2Body).2.items.filter
      (fun it => it.order_id == emptyDB.nextOrderId)).length = 2 := by
  exact ⟨⟨_, _, rfl⟩, rfl, rfl⟩

end OrdersService
